import Mathlib

/-
Verification development for the branch-resolution and token-refresh control
logic of the claude-code-action repository.

The embedding is shallow: each TypeScript function in scope is translated to
an executable Lean definition.  External collaborators (the GitHub REST
client, the `$` shell command runner, the token-issuance service and the git
re-authentication helper) are modelled as oracle outcomes supplied in an
environment record, and every observable side effect (git commands, GitHub
Actions outputs, token refreshes) is recorded in an explicit trace so that
frame conditions can be stated.  JavaScript strings are modelled as Lean
`String` values (adequate for the ASCII data these functions handle), and
`Date.now()` readings are explicit `Int` inputs.
-/

/- ===== Models of the JavaScript string primitives used by the source ===== -/

/-- Model of `needle` being a prefix of `hay` over character lists
(helper for `String.prototype.includes`). -/
def beginsWithChars : List Char → List Char → Bool
  | [], _ => true
  | _ :: _, [] => false
  | a :: as, b :: bs => a == b && beginsWithChars as bs

/-- Model of substring occurrence over character lists. -/
def occursInChars (needle : List Char) : List Char → Bool
  | [] => beginsWithChars needle []
  | hay@(_ :: rest) => beginsWithChars needle hay || occursInChars needle rest

/-- Model of JavaScript `s.includes(needle)` (case-sensitive substring test). -/
def jsIncludes (s needle : String) : Bool :=
  occursInChars needle.data s.data

/-- Model of per-character `String.prototype.toLowerCase` on the ASCII range
(the only range the source feeds it for the uppercase-sensitive parts). -/
def jsCharToLower (c : Char) : Char :=
  if 65 ≤ c.toNat ∧ c.toNat ≤ 90 then Char.ofNat (c.toNat + 32) else c

/-- Model of JavaScript `s.toLowerCase()`. -/
def jsToLowerCase (s : String) : String :=
  ⟨s.data.map jsCharToLower⟩

/-- Model of JavaScript `s.substring(0, stop)` (for ASCII data, JS UTF-16
units coincide with characters). -/
def jsSubstringTo (s : String) (stop : Nat) : String :=
  ⟨s.data.take stop⟩

/-- Model of JavaScript `s.padStart(2, "0")`. -/
def padStart2 (s : String) : String :=
  if s.data.length < 2 then ⟨List.replicate (2 - s.data.length) '0' ++ s.data⟩ else s

/-- The decimal digit character for a digit value (codepoint 48 + d). -/
def digitCh (d : Nat) : Char := Char.ofNat (48 + d)

/-- Fuel-based decimal rendering of a natural number (most significant digit
first); with fuel `n + 1` the fuel never runs out. -/
def natCharsCore : Nat → Nat → List Char
  | 0, _ => []
  | fuel + 1, n =>
    if n < 10 then [digitCh n]
    else natCharsCore fuel (n / 10) ++ [digitCh (n % 10)]

/-- Model of JavaScript number-to-string conversion `` `${n}` `` for a
natural number. -/
def jsNatToString (n : Nat) : String :=
  ⟨natCharsCore (n + 1) n⟩

/-- A character is ASCII whitespace (the cases relevant to `git status`
output). -/
def isWsChar (c : Char) : Bool :=
  c == ' ' || c == '\t' || c == '\n' || c == '\r'

/-- Model of JavaScript `s.trim()` (kernel-reducible, unlike `String.trim`). -/
def jsTrim (s : String) : String :=
  ⟨((s.data.dropWhile isWsChar).reverse.dropWhile isWsChar).reverse⟩

/- ===== CredentialLifecycle / RetryingExecutor (token-refresh.ts) ===== -/

deriving instance DecidableEq for Except

/--
Events a run of the retry wrapper can record: a call to the refresh helper,
or an invocation of the wrapped operation.
-/
inductive GitEvent where
  | refresh
  | invoke
deriving DecidableEq, Repr

/--
Model of `refreshTokenAndReconfigureGit`.  The two awaited steps,
`refreshGitHubToken()` (from `../token`) and `reconfigureGitToken(...)` (from
`./git-config`), are code of this repository that is not among the provided
source files; following the specification they are external issuance /
re-authentication steps either of which may fail, so they enter the model as
oracle outcomes.  A failure of either step is wrapped as
`Token refresh failed: ...`, exactly as the source's catch block does.
-/
def refreshTokenAndReconfigureGit (freshToken : Except String String)
    (reconfig : Except String Unit) : Except String String :=
  match freshToken with
  | .error e => .error ("Token refresh failed: " ++ e)
  | .ok tok =>
    match reconfig with
    | .error e => .error ("Token refresh failed: " ++ e)
    | .ok _ => .ok tok

/-- Model of `shouldRefreshToken`.  The source reads `Date.now()` inside the
function; here the clock reading is the explicit first argument. -/
def shouldRefreshToken (now lastRefreshTime : Int) : Bool :=
  let REFRESH_THRESHOLD_MS : Int := 45 * 60 * 1000
  let elapsed := now - lastRefreshTime
  decide (elapsed ≥ REFRESH_THRESHOLD_MS)

/-- The inline authentication-failure signature test of `withTokenRefresh`:
`errorMessage.includes("authentication") || errorMessage.includes("401") ||
errorMessage.includes("403") || errorMessage.includes("token")`. -/
def isAuthErrorMessage (errorMessage : String) : Bool :=
  jsIncludes errorMessage "authentication" || jsIncludes errorMessage "401" ||
    jsIncludes errorMessage "403" || jsIncludes errorMessage "token"

/--
Environment of one `withTokenRefresh` call: the clock readings it can take,
the outcomes of the (at most two) operation invocations, and the oracle
outcomes of the (at most two) refresh attempts.  `op1` is what the first
invocation of `operation` would produce, `op2` the second.
-/
structure TokenRefreshEnv (α : Type) where
  now0 : Int
  preToken : Except String String := .ok "tok"
  preReconfig : Except String Unit := .ok ()
  nowAfterPre : Int := 0
  op1 : Except String α
  recToken : Except String String := .ok "tok"
  recReconfig : Except String Unit := .ok ()
  nowAfterRec : Int := 0
  op2 : Except String α

/--
The `try { return await operation(); } catch ...` part of
`withTokenRefresh`: invoke the operation; on failure whose stringified
message matches the authentication signature, refresh once, record the new
refresh time, and re-invoke the operation once, propagating whatever the
recovery attempt produces; otherwise rethrow.  Returns the final outcome,
the final `lastRefreshTime.value`, and the trace of events so far.
-/
def withTokenRefreshAttempt {α : Type} (env : TokenRefreshEnv α) (t : Int)
    (tr : List GitEvent) : Except String α × Int × List GitEvent :=
  match env.op1 with
  | .ok a => (.ok a, t, tr ++ [.invoke])
  | .error error =>
    let errorMessage := error
    if isAuthErrorMessage errorMessage then
      match refreshTokenAndReconfigureGit env.recToken env.recReconfig with
      | .error retryError => (.error retryError, t, tr ++ [.invoke, .refresh])
      | .ok _ => (env.op2, env.nowAfterRec, tr ++ [.invoke, .refresh, .invoke])
    else
      (.error error, t, tr ++ [.invoke])

/--
Model of `withTokenRefresh(operation, context, user, lastRefreshTime)`.
`t` is the `lastRefreshTime.value` cell on entry; the middle component of
the result is its value on exit.  The pre-flight check refreshes first when
`shouldRefreshToken` fires; a pre-flight refresh failure propagates before
the operation is ever invoked (the source's `try` only wraps `operation()`).
-/
def withTokenRefresh {α : Type} (env : TokenRefreshEnv α) (t : Int) :
    Except String α × Int × List GitEvent :=
  if shouldRefreshToken env.now0 t then
    match refreshTokenAndReconfigureGit env.preToken env.preReconfig with
    | .error e => (.error e, t, [.refresh])
    | .ok _ => withTokenRefreshAttempt env env.nowAfterPre [.refresh]
  else
    withTokenRefreshAttempt env t []

/-- The pre-flight events of a `withTokenRefresh` call. -/
def preflightEvents {α : Type} (env : TokenRefreshEnv α) (t : Int) : List GitEvent :=
  if shouldRefreshToken env.now0 t then [.refresh] else []

/- ===== Contracts for the retry wrapper ===== -/

/--
Behaviour of `withTokenRefresh` when the first invocation of the operation
fails with message `msg` (and the pre-flight phase did not abort the call):
an authentication-shaped failure triggers exactly one failure-triggered
refresh attempt; if that refresh succeeds the operation is re-invoked
exactly once and its outcome is final, and if the refresh fails, the refresh
failure is final with no re-invocation.  A non-matching failure propagates
at once with no retry and no failure-triggered refresh.
-/
def retryWrapperContract {α : Type} (env : TokenRefreshEnv α) (t : Int) (msg : String) : Prop :=
  (isAuthErrorMessage msg = true →
    (withTokenRefresh env t).1 =
      (match refreshTokenAndReconfigureGit env.recToken env.recReconfig with
       | .error e => .error e
       | .ok _ => env.op2) ∧
    (withTokenRefresh env t).2.2 =
      preflightEvents env t ++
        (match refreshTokenAndReconfigureGit env.recToken env.recReconfig with
         | .error _ => [GitEvent.invoke, GitEvent.refresh]
         | .ok _ => [GitEvent.invoke, GitEvent.refresh, GitEvent.invoke])) ∧
  (isAuthErrorMessage msg = false →
    (withTokenRefresh env t).1 = .error msg ∧
    (withTokenRefresh env t).2.2 = preflightEvents env t ++ [GitEvent.invoke])

/--
Final value of the shared `lastRefreshTime.value` cell after a
`withTokenRefresh` call whose operation fails with message `msg`:
with no pre-flight refresh, an authentication-shaped failure advances it to
the post-recovery-refresh clock exactly when the recovery refresh succeeds
(whatever the retry then does), and a non-matching failure leaves it
untouched; when the pre-flight refresh fired and succeeded, the cell holds
the pre-flight refresh time.
-/
def refreshStatePersistence {α : Type} (env : TokenRefreshEnv α) (t : Int) (msg : String) : Prop :=
  (shouldRefreshToken env.now0 t = false → isAuthErrorMessage msg = true →
    (withTokenRefresh env t).2.1 =
      (match refreshTokenAndReconfigureGit env.recToken env.recReconfig with
       | .error _ => t
       | .ok _ => env.nowAfterRec)) ∧
  (shouldRefreshToken env.now0 t = false → isAuthErrorMessage msg = false →
    (withTokenRefresh env t).2.1 = t) ∧
  (shouldRefreshToken env.now0 t = true →
    (refreshTokenAndReconfigureGit env.preToken env.preReconfig).isOk = true →
    isAuthErrorMessage msg = false →
    (withTokenRefresh env t).2.1 = env.nowAfterPre)

/- ===== Concrete environments for the retry-wrapper claims ===== -/

/-- An authentication-shaped first failure whose recovery refresh itself
fails: the operation is never re-invoked. -/
def envC1cex : TokenRefreshEnv Nat :=
  { now0 := 0, op1 := .error "HTTP 401 Unauthorized", recToken := .error "boom", op2 := .ok 7 }

/-- An authentication-shaped first failure with a succeeding recovery
refresh and a succeeding retry. -/
def envC1wit : TokenRefreshEnv Nat :=
  { now0 := 0, op1 := .error "remote rejected: 401", op2 := .ok 7 }

/-- Auth-shaped failure, recovery refresh fails, state frozen at entry. -/
def envC10a : TokenRefreshEnv Nat :=
  { now0 := 0, op1 := .error "HTTP 401", recToken := .error "issuer down",
    nowAfterRec := 7, op2 := .ok 1 }

/-- Pre-flight refresh fires and succeeds, then a non-auth failure. -/
def envC10b : TokenRefreshEnv Nat :=
  { now0 := 2700000, nowAfterPre := 123, op1 := .error "network glitch", op2 := .ok 1 }

/-- Auth-shaped failure, recovery refresh succeeds, retry fails again. -/
def envC10w : TokenRefreshEnv Nat :=
  { now0 := 0, op1 := .error "bad credentials (403)", nowAfterRec := 99,
    op2 := .error "still failing" }

/- ===== Helper lemmas for the retry wrapper ===== -/

/-- A call whose pre-flight phase does not abort (either the freshness check
does not fire, or the pre-flight refresh succeeds) proceeds to the
try-block with the pre-flight trace and the pre-flight-updated cell. -/
theorem withTokenRefresh_reaches {α : Type} (env : TokenRefreshEnv α) (t : Int)
    (hpre : shouldRefreshToken env.now0 t = false ∨
      (refreshTokenAndReconfigureGit env.preToken env.preReconfig).isOk = true) :
    withTokenRefresh env t =
      withTokenRefreshAttempt env
        (if shouldRefreshToken env.now0 t then env.nowAfterPre else t)
        (preflightEvents env t) := by
  unfold withTokenRefresh preflightEvents
  cases hpf : shouldRefreshToken env.now0 t with
  | false => simp
  | true =>
    have h : (refreshTokenAndReconfigureGit env.preToken env.preReconfig).isOk = true := by
      rcases hpre with h | h
      · rw [hpf] at h; cases h
      · exact h
    cases hrec : refreshTokenAndReconfigureGit env.preToken env.preReconfig with
    | error e => rw [hrec] at h; exact absurd h (by simp [Except.isOk, Except.toBool])
    | ok tok => simp

/-- Claim C6: `shouldRefreshToken` is a pure boolean function of the clock
reading and the last-refresh timestamp, returning true exactly when the
elapsed time is at least 45 minutes; in particular it returns false at an
elapsed time of 44 minutes and true at exactly 45 minutes. -/
theorem claim_C6_theorem (now lastRefreshTime : Int) :
    (shouldRefreshToken now lastRefreshTime = true ↔
      now - lastRefreshTime ≥ 45 * 60 * 1000) ∧
    shouldRefreshToken (lastRefreshTime + 44 * 60 * 1000) lastRefreshTime = false ∧
    shouldRefreshToken (lastRefreshTime + 45 * 60 * 1000) lastRefreshTime = true := by
  refine ⟨?_, ?_, ?_⟩ <;>
    simp only [shouldRefreshToken, decide_eq_true_eq, decide_eq_false_iff_not, ge_iff_le] <;>
    omega

/-- Claim C1 (counterexample to the claim as stated): an operation failure
containing "401" whose recovery refresh itself fails leads to exactly one
operation invocation — no re-invocation follows the failure-triggered
refresh attempt, and the final outcome is the refresh failure rather than a
retry outcome. -/
theorem claim_C1_counterexample :
    isAuthErrorMessage "HTTP 401 Unauthorized" = true ∧
    (withTokenRefresh envC1cex 0).2.2.count GitEvent.invoke = 1 ∧
    (withTokenRefresh envC1cex 0).1 = .error "Token refresh failed: boom" := by
  decide

/-- Claim C1 (amended): when the operation's first invocation fails with an
authentication-shaped message, the wrapper performs exactly one
failure-triggered refresh attempt; if that refresh succeeds it re-invokes
the operation exactly once and the retry's outcome is final, and if the
refresh fails, that failure is final with no re-invocation.  A failure not
matching the signature is propagated immediately with zero retries and zero
failure-triggered refreshes. -/
theorem claim_C1_amended {α : Type} (env : TokenRefreshEnv α) (t : Int) (msg : String)
    (hop : env.op1 = .error msg)
    (hpre : shouldRefreshToken env.now0 t = false ∨
      (refreshTokenAndReconfigureGit env.preToken env.preReconfig).isOk = true) :
    retryWrapperContract env t msg := by
  unfold retryWrapperContract
  rw [withTokenRefresh_reaches env t hpre]
  constructor
  · intro hauth
    cases hrec : refreshTokenAndReconfigureGit env.recToken env.recReconfig with
    | error e => unfold withTokenRefreshAttempt; rw [hop]; simp [hauth, hrec]
    | ok tok => unfold withTokenRefreshAttempt; rw [hop]; simp [hauth, hrec]
  · intro hauth
    unfold withTokenRefreshAttempt; rw [hop]; simp [hauth]

/-- Claim C1 (witness): the amended claim at a concrete call whose operation
fails once with a "401" message and succeeds on the retry. -/
theorem claim_C1_witness : retryWrapperContract envC1wit 0 "remote rejected: 401" :=
  claim_C1_amended envC1wit 0 "remote rejected: 401" rfl (Or.inl rfl)

/-- Claim C10 (counterexample to the claim as stated): (a) with the
pre-flight check not firing and an authentication-shaped failure, the cell
is NOT advanced when the recovery refresh itself fails; (b) with a
non-authentication failure, the cell is NOT unchanged when the pre-flight
check fired (it holds the pre-flight refresh time). -/
theorem claim_C10_counterexample :
    shouldRefreshToken envC10a.now0 0 = false ∧
    isAuthErrorMessage "HTTP 401" = true ∧
    envC10a.nowAfterRec = 7 ∧
    (withTokenRefresh envC10a 0).2.1 = 0 ∧
    isAuthErrorMessage "network glitch" = false ∧
    shouldRefreshToken envC10b.now0 0 = true ∧
    (withTokenRefresh envC10b 0).2.1 = 123 := by
  decide

/-- Claim C10 (amended): when the pre-flight check does not fire and the
operation fails with an authentication-shaped message, `refreshState.value`
is advanced to the recovery-refresh time exactly when the recovery refresh
succeeds — an update that persists whatever the retry then produces — and is
unchanged when the recovery refresh fails; when the operation fails with a
non-authentication message the cell is unchanged if the pre-flight check did
not fire, and holds the pre-flight refresh time if it fired and succeeded. -/
theorem claim_C10_amended {α : Type} (env : TokenRefreshEnv α) (t : Int) (msg : String)
    (hop : env.op1 = .error msg) :
    refreshStatePersistence env t msg := by
  unfold refreshStatePersistence
  refine ⟨?_, ?_, ?_⟩
  · intro hpf hauth
    rw [withTokenRefresh_reaches env t (Or.inl hpf), hpf]
    cases hrec : refreshTokenAndReconfigureGit env.recToken env.recReconfig with
    | error e => unfold withTokenRefreshAttempt; rw [hop]; simp [hauth, hrec]
    | ok tok => unfold withTokenRefreshAttempt; rw [hop]; simp [hauth, hrec]
  · intro hpf hauth
    rw [withTokenRefresh_reaches env t (Or.inl hpf), hpf]
    unfold withTokenRefreshAttempt; rw [hop]; simp [hauth]
  · intro hpf hpreok hauth
    rw [withTokenRefresh_reaches env t (Or.inr hpreok), hpf]
    unfold withTokenRefreshAttempt; rw [hop]; simp [hauth]

/-- Claim C10 (witness): the amended claim at a concrete call with an
authentication-shaped failure, a succeeding recovery refresh and a failing
retry: the cell ends at the recovery-refresh time. -/
theorem claim_C10_witness : refreshStatePersistence envC10w 0 "bad credentials (403)" :=
  claim_C10_amended envC10w 0 "bad credentials (403)" rfl

/- ===== Branch-name generation (setupBranch, lines 152-165) ===== -/

/-- Model of the timestamp construction
`` `${now.getFullYear()}${String(now.getMonth() + 1).padStart(2, "0")}${String(now.getDate()).padStart(2, "0")}-${String(now.getHours()).padStart(2, "0")}${String(now.getMinutes()).padStart(2, "0")}` ``;
`month0` is the zero-based `getMonth()` value. -/
def jsTimestamp (year month0 day hours minutes : Nat) : String :=
  jsNatToString year ++ padStart2 (jsNatToString (month0 + 1)) ++
    padStart2 (jsNatToString day) ++ "-" ++ padStart2 (jsNatToString hours) ++
    padStart2 (jsNatToString minutes)

/-- Model of the branch-name computation
`` `${branchPrefix}${entityType}-${entityNumber}-${timestamp}` `` followed by
`.toLowerCase().substring(0, 50)`. -/
def newBranchName (branchPrefixInput : String) (isPR : Bool) (entityNumber : Nat)
    (timestamp : String) : String :=
  let entityType := if isPR then "pr" else "issue"
  let branchName :=
    branchPrefixInput ++ entityType ++ "-" ++ jsNatToString entityNumber ++ "-" ++ timestamp
  jsSubstringTo (jsToLowerCase branchName) 50

/-- A character is an ASCII uppercase letter. -/
def isAsciiUpper (c : Char) : Bool := decide (65 ≤ c.toNat ∧ c.toNat ≤ 90)

/- ===== Character-level lemmas ===== -/

/-- Codepoint of the lower-cased character. -/
theorem jsCharToLower_toNat (c : Char) :
    (jsCharToLower c).toNat =
      if 65 ≤ c.toNat ∧ c.toNat ≤ 90 then c.toNat + 32 else c.toNat := by
  unfold jsCharToLower
  by_cases h : 65 ≤ c.toNat ∧ c.toNat ≤ 90
  · rw [if_pos h, if_pos h]
    obtain ⟨h1, h2⟩ := h
    set n := c.toNat with hn
    interval_cases n <;> decide
  · rw [if_neg h, if_neg h]

/-- Lower-casing never produces an ASCII uppercase letter. -/
theorem jsCharToLower_notUpper (c : Char) : isAsciiUpper (jsCharToLower c) = false := by
  unfold isAsciiUpper
  rw [decide_eq_false_iff_not, jsCharToLower_toNat]
  split_ifs with h
  · omega
  · exact h

/-- Lower-casing maps no character other than an underscore to an
underscore. -/
theorem jsCharToLower_ne_underscore (c : Char) (hc : c.toNat ≠ 95) :
    (jsCharToLower c).toNat ≠ 95 := by
  rw [jsCharToLower_toNat]
  split_ifs with h
  · omega
  · exact hc

/-- A character with the underscore's codepoint is the underscore. -/
theorem char_eq_underscore (c : Char) (h : c.toNat = 95) : c = '_' :=
  Char.ext (UInt32.ext h)

/-- Every character produced by the fuel-based decimal rendering is a
decimal digit. -/
theorem natCharsCore_digits (fuel : Nat) :
    ∀ n c, c ∈ natCharsCore fuel n → 48 ≤ c.toNat ∧ c.toNat ≤ 57 := by
  induction fuel with
  | zero => intro n c hc; simp [natCharsCore] at hc
  | succ fuel ih =>
    intro n c hc
    unfold natCharsCore at hc
    by_cases h : n < 10
    · rw [if_pos h] at hc
      simp at hc
      subst hc
      unfold digitCh
      interval_cases n <;> exact ⟨by decide, by decide⟩
    · rw [if_neg h] at hc
      rcases List.mem_append.1 hc with h1 | h1
      · exact ih _ _ h1
      · simp at h1
        subst h1
        have h2 : n % 10 < 10 := Nat.mod_lt _ (by omega)
        unfold digitCh
        set m := n % 10 with hm
        interval_cases m <;> exact ⟨by decide, by decide⟩

/-- Every character of a JS-rendered natural number is a decimal digit. -/
theorem jsNatToString_digits (n : Nat) :
    ∀ c ∈ (jsNatToString n).data, 48 ≤ c.toNat ∧ c.toNat ≤ 57 :=
  fun c hc => natCharsCore_digits _ _ c hc

/-- `padStart2` only adds zero characters. -/
theorem padStart2_chars (s : String) (c : Char) (hc : c ∈ (padStart2 s).data) :
    c = '0' ∨ c ∈ s.data := by
  unfold padStart2 at hc
  split at hc
  · rcases List.mem_append.1 hc with h1 | h1
    · exact Or.inl (List.eq_of_mem_replicate h1)
    · exact Or.inr h1
  · exact Or.inr hc

/-- Every character of the generated timestamp is a decimal digit or a
hyphen. -/
theorem jsTimestamp_chars (y m0 d hh mm : Nat) :
    ∀ c ∈ (jsTimestamp y m0 d hh mm).data,
      (48 ≤ c.toNat ∧ c.toNat ≤ 57) ∨ c = '-' := by
  intro c hc
  unfold jsTimestamp at hc
  simp only [String.data_append, List.mem_append] at hc
  have hdig : ∀ m : Nat, c ∈ (padStart2 (jsNatToString m)).data →
      (48 ≤ c.toNat ∧ c.toNat ≤ 57) ∨ c = '-' := by
    intro m hm
    rcases padStart2_chars _ _ hm with h | h
    · subst h; exact Or.inl ⟨by decide, by decide⟩
    · exact Or.inl (jsNatToString_digits m c h)
  rcases hc with ((((h | h) | h) | h) | h) | h
  · exact Or.inl (jsNatToString_digits y c h)
  · exact hdig _ h
  · exact hdig _ h
  · simp at h; subst h; exact Or.inr rfl
  · exact hdig _ h
  · exact hdig _ h

/- ===== Claim C2 ===== -/

/--
The guarantees that actually hold of every generated branch name: at most 50
characters, no ASCII uppercase letter, and — provided the supplied branch
prefix contains no underscore — no underscore.
-/
def branchNameContract (p : String) (isPR : Bool) (n y m0 d hh mm : Nat) : Prop :=
  (newBranchName p isPR n (jsTimestamp y m0 d hh mm)).data.length ≤ 50 ∧
  (∀ c ∈ (newBranchName p isPR n (jsTimestamp y m0 d hh mm)).data, isAsciiUpper c = false) ∧
  '_' ∉ (newBranchName p isPR n (jsTimestamp y m0 d hh mm)).data

/-- Claim C2 (counterexample to the claim as stated): with branch prefix
`"claude_"` the generated name keeps the underscore — lower-casing and
truncation remove neither underscores nor any other character class. -/
theorem claim_C2_counterexample :
    newBranchName "claude_" false 42 (jsTimestamp 2024 2 15 14 30) =
      "claude_issue-42-20240315-1430" ∧
    '_' ∈ (newBranchName "claude_" false 42 (jsTimestamp 2024 2 15 14 30)).data := by
  constructor
  · decide
  · decide

/-- Claim C2 (amended): for every branch prefix, entity type, entity number
and date, the generated name is the composed
prefix-entityType-entityNumber-timestamp string lower-cased and
hard-truncated to 50 characters; it contains no ASCII uppercase letter, is
at most 50 characters long, and contains no underscore whenever the
supplied prefix contains none; the specification's example instance holds
bit-exactly. -/
theorem claim_C2_amended (p : String) (isPR : Bool) (n y m0 d hh mm : Nat)
    (hp : '_' ∉ p.data) :
    branchNameContract p isPR n y m0 d hh mm ∧
    newBranchName "claude-" false 42 (jsTimestamp 2024 2 15 14 30) =
      "claude-issue-42-20240315-1430" := by
  refine ⟨⟨?_, ?_, ?_⟩, by decide⟩
  · simp only [newBranchName, jsSubstringTo, jsToLowerCase, List.length_take]
    exact Nat.le_trans (Nat.min_le_left _ _) (Nat.le_refl _)
  · intro c hc
    simp only [newBranchName, jsSubstringTo, jsToLowerCase] at hc
    have hc' := List.mem_of_mem_take hc
    rcases List.mem_map.1 hc' with ⟨c0, _, rfl⟩
    exact jsCharToLower_notUpper c0
  · intro hc
    simp only [newBranchName, jsSubstringTo, jsToLowerCase] at hc
    have hc' := List.mem_of_mem_take hc
    rcases List.mem_map.1 hc' with ⟨c0, hc0, heq⟩
    have h95 : c0.toNat = 95 := by
      by_contra hne
      exact jsCharToLower_ne_underscore c0 hne (by rw [heq]; decide)
    have hc0u : c0 = '_' := char_eq_underscore c0 h95
    subst hc0u
    simp only [String.data_append, List.mem_append] at hc0
    rcases hc0 with ((((h | h) | h) | h) | h) | h
    · exact hp h
    · rcases isPR with _ | _ <;> simp_all
    · exact absurd h (by decide)
    · have := jsNatToString_digits n '_' h
      have : ¬ (48 ≤ ('_').toNat ∧ ('_').toNat ≤ 57) := by decide
      simp_all
    · exact absurd h (by decide)
    · rcases jsTimestamp_chars y m0 d hh mm '_' h with h1 | h1
      · exact absurd h1 (by decide)
      · exact absurd h1 (by decide)

/-- Claim C2 (witness): the amended claim at the specification's example
input (prefix `"claude-"`, issue 42, timestamp 20240315-1430). -/
theorem claim_C2_witness :
    branchNameContract "claude-" false 42 2024 2 15 14 30 ∧
    newBranchName "claude-" false 42 (jsTimestamp 2024 2 15 14 30) =
      "claude-issue-42-20240315-1430" :=
  claim_C2_amended "claude-" false 42 2024 2 15 14 30 (by decide)

/- ===== BranchResolver (setupBranch) ===== -/

/-- Errors surfaced by the external collaborators: REST-client errors carry
an HTTP `status` (the source tests `error.status === 404`); `thrown` models
a plain `new Error(message)` or a rethrown shell-command failure, which has
no `status` field. -/
inductive JsError where
  | api (status : Nat) (message : String)
  | thrown (message : String)
deriving DecidableEq, Repr

/-- Model of the JavaScript read `error.status` (absent on plain errors). -/
def jsErrStatus : JsError → Option Nat
  | .api s _ => some s
  | .thrown _ => none

/-- The `BranchInfo` result type of `setupBranch`. -/
structure BranchInfo where
  baseBranch : String
  claudeBranch : Option String := none
  currentBranch : String
deriving DecidableEq, Repr

/-- The single-quote character, as used in the branch-not-found message. -/
def singleQuote : String := ⟨[Char.ofNat 39]⟩

/-- Observable side effects of the branch-resolution and commit scripts. -/
inductive Effect where
  | tokenRefresh
  | gitFetch (branch : String)
  | gitFetchDepth (depth : Nat) (branch : String)
  | gitCheckout (branch : String)
  | gitCheckoutNewBranch (branch : String)
  | gitPushUpstream (branch : String)
  | gitConfigUserName
  | gitConfigUserEmail
  | gitStatusQuery
  | gitAdd
  | gitCommitMsg (message : String)
  | gitPush (branch : String)
  | gitPushHead
  | setOutput (name : String) (value : String)
deriving DecidableEq, Repr

/-- How a `setupBranch` run can end: a returned `BranchInfo`, a thrown
error propagated to the caller, or `process.exit(code)` from within the
function. -/
inductive SetupResult where
  | ret (info : BranchInfo)
  | err (e : JsError)
  | exited (code : Nat)
deriving DecidableEq, Repr

/--
Environment of one `setupBranch` run: the event context and inputs (string
inputs use `""` for the falsy absent value, as in the action's input
handling), the date components of `new Date()`, the entry clock reading,
and oracle outcomes for every external call the run can make.
-/
structure SetupEnv where
  entityNumber : Nat
  branch : String := ""
  baseBranch : String := ""
  branchPrefixInput : String := "claude/"
  isPR : Bool := false
  useCommitSigning : Bool := false
  prState : String := "OPEN"
  headRefName : String := ""
  baseRefName : String := ""
  commitCount : Nat := 0
  year : Nat := 2024
  month0 : Nat := 0
  day : Nat := 1
  hours : Nat := 0
  minutes : Nat := 0
  startNow : Int := 0
  getBranch : Except JsError Unit := .ok ()
  reposGet : Except JsError String := .ok "main"
  getRef : Except JsError String := .ok "sha"
  gitCheckout : Except String Unit := .ok ()
  gitCheckoutB : Except String Unit := .ok ()
  fetchEnv : TokenRefreshEnv Unit := { now0 := 0, op1 := .ok (), op2 := .ok () }
  pushEnv : TokenRefreshEnv Unit := { now0 := 0, op1 := .ok (), op2 := .ok () }

/-- Translate the retry wrapper's event trace into the effect trace, naming
the wrapped git command. -/
def mapGitEvents (opEffect : Effect) (tr : List GitEvent) : List Effect :=
  tr.map (fun g => match g with | .refresh => .tokenRefresh | .invoke => opEffect)

/-- `sourceBranch` / `detectedBaseBranch` determination: the `baseBranch`
input when truthy, otherwise the repository's default branch from
`octokits.rest.repos.get`. -/
def resolveSourceBranch (env : SetupEnv) : Except JsError String :=
  if env.baseBranch ≠ "" then .ok env.baseBranch else env.reposGet

/-- The explicit-branch path of `setupBranch` (lines 36-90): verify the
provided branch exists remotely (404 becomes the branch-not-found error,
other lookup failures propagate unchanged), fetch it through
`withTokenRefresh`, check it out, determine the base branch, emit the two
outputs and return. -/
def explicitBranchPath (env : SetupEnv) : SetupResult × List Effect :=
  let branch := env.branch
  match env.getBranch with
  | .error e =>
    if jsErrStatus e = some 404 then
      (.err (.thrown ("Specified branch " ++ singleQuote ++ branch ++ singleQuote ++
        " does not exist in the repository")), [])
    else
      (.err e, [])
  | .ok _ =>
    match withTokenRefresh env.fetchEnv env.startNow with
    | (fres, _, ftr) =>
      let ftrE := mapGitEvents (.gitFetch branch) ftr
      match fres with
      | .error msg => (.err (.thrown msg), ftrE)
      | .ok _ =>
        match env.gitCheckout with
        | .error msg => (.err (.thrown msg), ftrE ++ [.gitCheckout branch])
        | .ok _ =>
          match resolveSourceBranch env with
          | .error e => (.err e, ftrE ++ [.gitCheckout branch])
          | .ok detectedBaseBranch =>
            (.ret { baseBranch := detectedBaseBranch, claudeBranch := some branch,
                    currentBranch := branch },
             ftrE ++ [.gitCheckout branch,
                      .setOutput "CLAUDE_BRANCH" branch,
                      .setOutput "BASE_BRANCH" detectedBaseBranch])

/-- The open-pull-request path of `setupBranch` (lines 102-134): fetch the
head branch with depth `Math.max(commitCount, 20)` through
`withTokenRefresh`, check it out, and return the PR's base and head — with
no `claudeBranch` and no outputs. -/
def openPRPath (env : SetupEnv) : SetupResult × List Effect :=
  let branchName := env.headRefName
  let fetchDepth := max env.commitCount 20
  match withTokenRefresh env.fetchEnv env.startNow with
  | (fres, _, ftr) =>
    let ftrE := mapGitEvents (.gitFetchDepth fetchDepth branchName) ftr
    match fres with
    | .error msg => (.err (.thrown msg), ftrE)
    | .ok _ =>
      match env.gitCheckout with
      | .error msg => (.err (.thrown msg), ftrE ++ [.gitCheckout branchName])
      | .ok _ =>
        (.ret { baseBranch := env.baseRefName, currentBranch := branchName },
         ftrE ++ [.gitCheckout branchName])

/-- The new-branch path of `setupBranch` (lines 137-225), for an issue or a
closed/merged PR: resolve the source branch (a `repos.get` failure here
propagates to the caller), generate the branch name, then inside the
`try` block resolve the source ref; any failure inside the `try` — the ref
lookup included — is logged and ends the process with `process.exit(1)`.
With commit signing delegated no branch is created; otherwise the branch is
created locally and pushed upstream through `withTokenRefresh`. -/
def newBranchPath (env : SetupEnv) : SetupResult × List Effect :=
  match resolveSourceBranch env with
  | .error e => (.err e, [])
  | .ok sourceBranch =>
    let timestamp := jsTimestamp env.year env.month0 env.day env.hours env.minutes
    let newBranch := newBranchName env.branchPrefixInput env.isPR env.entityNumber timestamp
    match env.getRef with
    | .error _ => (.exited 1, [])
    | .ok _ =>
      if env.useCommitSigning then
        (.ret { baseBranch := sourceBranch, claudeBranch := some newBranch,
                currentBranch := sourceBranch },
         [.setOutput "CLAUDE_BRANCH" newBranch, .setOutput "BASE_BRANCH" sourceBranch])
      else
        match env.gitCheckoutB with
        | .error _ => (.exited 1, [.gitCheckoutNewBranch newBranch])
        | .ok _ =>
          match withTokenRefresh env.pushEnv env.startNow with
          | (pres, _, ptr) =>
            let ptrE := mapGitEvents (.gitPushUpstream newBranch) ptr
            match pres with
            | .error _ => (.exited 1, Effect.gitCheckoutNewBranch newBranch :: ptrE)
            | .ok _ =>
              (.ret { baseBranch := sourceBranch, claudeBranch := some newBranch,
                      currentBranch := newBranch },
               Effect.gitCheckoutNewBranch newBranch :: ptrE ++
                 [.setOutput "CLAUDE_BRANCH" newBranch, .setOutput "BASE_BRANCH" sourceBranch])

/-- Model of `setupBranch`: dispatch on the explicit branch input, then on
the entity being an open pull request. -/
def setupBranch (env : SetupEnv) : SetupResult × List Effect :=
  if env.branch ≠ "" then explicitBranchPath env
  else if env.isPR ∧ ¬(env.prState = "CLOSED" ∨ env.prState = "MERGED") then openPRPath env
  else newBranchPath env

/-- The branch name a `setupBranch` run generates on the new-branch path. -/
def newBranchNameOf (env : SetupEnv) : String :=
  newBranchName env.branchPrefixInput env.isPR env.entityNumber
    (jsTimestamp env.year env.month0 env.day env.hours env.minutes)

/-- The run takes the open-pull-request path. -/
def isOpenPRRunB (env : SetupEnv) : Bool :=
  env.branch == "" && env.isPR && !(env.prState == "CLOSED" || env.prState == "MERGED")

/-- The effect is a GitHub Actions output emission. -/
def isSetOutputEff : Effect → Bool
  | .setOutput _ _ => true
  | _ => false

/-- The effect creates a branch locally (`git checkout -b`) or remotely
(a push). -/
def isBranchCreationEff : Effect → Bool
  | .gitCheckoutNewBranch _ => true
  | .gitPushUpstream _ => true
  | .gitPush _ => true
  | .gitPushHead => true
  | _ => false

/-- Every fetch effect in the trace uses depth `max cc 20` on branch `hr`. -/
def fetchDepthRight (cc : Nat) (hr : String) : Effect → Bool
  | .gitFetchDepth d br => d == max cc 20 && br == hr
  | _ => true

/- ===== CommitAndPushOrchestrator (commit-and-push entrypoint) ===== -/

/-- Environment of one commit-and-push run: the environment variables it
reads (`""` models an unset/falsy variable), the entry clock reading, and
oracle outcomes for each shell command. -/
structure CommitEnv where
  claudeBranch : String := ""
  githubRunId : String := ""
  githubWorkflow : String := ""
  triggerUsername : String := ""
  githubActor : String := ""
  startNow : Int := 0
  gitConfigName : Except String Unit := .ok ()
  gitConfigEmail : Except String Unit := .ok ()
  gitStatus : Except String String := .ok ""
  gitAdd : Except String Unit := .ok ()
  gitCommit : Except String Unit := .ok ()
  pushEnv : TokenRefreshEnv Unit := { now0 := 0, op1 := .ok (), op2 := .ok () }

/-- How the commit-and-push run ends: normal return, or
`core.setFailed(...)` followed by `process.exit(1)`. -/
inductive RunResult where
  | ok
  | failedExit (message : String)
deriving DecidableEq, Repr

/-- Model of JavaScript `a || b` on strings. -/
def jsOrDefault (a b : String) : String := if a ≠ "" then a else b

/-- The commit message template, deterministically embedding the run id,
the workflow and the triggering actor. -/
def commitMessageOf (env : CommitEnv) : String :=
  "Claude Code: Automated changes from workflow run " ++ env.githubRunId ++
    "\n\nChanges made by Claude Code action in response to trigger.\n\nWorkflow: " ++
    env.githubWorkflow ++ "\nRun ID: " ++ env.githubRunId ++ "\nTriggered by: " ++
    jsOrDefault env.triggerUsername (jsOrDefault env.githubActor "")

/-- Model of the commit-and-push `run()`: configure the git user, query
`git status --porcelain`; with no pending changes report `committed=false`
and return; otherwise stage, commit, and push (to `claudeBranch` if set,
else to `HEAD`) through `withTokenRefresh`, then report `committed=true`.
Any failure is caught at the top: `core.setFailed` and `process.exit(1)`. -/
def commitAndPushRun (env : CommitEnv) : RunResult × List Effect :=
  let fail := fun (e : String) => RunResult.failedExit ("Failed to commit and push changes: " ++ e)
  match env.gitConfigName with
  | .error e => (fail e, [.gitConfigUserName])
  | .ok _ =>
  match env.gitConfigEmail with
  | .error e => (fail e, [.gitConfigUserName, .gitConfigUserEmail])
  | .ok _ =>
  match env.gitStatus with
  | .error e => (fail e, [.gitConfigUserName, .gitConfigUserEmail, .gitStatusQuery])
  | .ok statusOut =>
    let pre : List Effect := [.gitConfigUserName, .gitConfigUserEmail, .gitStatusQuery]
    let hasChanges := decide ((jsTrim statusOut).data.length > 0)
    if hasChanges then
      match env.gitAdd with
      | .error e => (fail e, pre ++ [.gitAdd])
      | .ok _ =>
      match env.gitCommit with
      | .error e => (fail e, pre ++ [.gitAdd, .gitCommitMsg (commitMessageOf env)])
      | .ok _ =>
        let pushEff : Effect :=
          if env.claudeBranch ≠ "" then .gitPush env.claudeBranch else .gitPushHead
        match withTokenRefresh env.pushEnv env.startNow with
        | (pres, _, ptr) =>
          let ptrE := mapGitEvents pushEff ptr
          match pres with
          | .error e => (fail e, pre ++ [.gitAdd, .gitCommitMsg (commitMessageOf env)] ++ ptrE)
          | .ok _ =>
            (.ok, pre ++ [.gitAdd, .gitCommitMsg (commitMessageOf env)] ++ ptrE ++
              [.setOutput "committed" "true"])
    else
      (.ok, pre ++ [.setOutput "committed" "false"])

/-- The effect stages, commits, or pushes. -/
def isMutatingGitEff : Effect → Bool
  | .gitAdd => true
  | .gitCommitMsg _ => true
  | .gitPush _ => true
  | .gitPushHead => true
  | .gitPushUpstream _ => true
  | _ => false

/- ===== Helper lemmas about the paths ===== -/

/-- Dispatch: an explicit branch input takes the explicit path. -/
theorem setupBranch_explicit (env : SetupEnv) (hb : env.branch ≠ "") :
    setupBranch env = explicitBranchPath env := by
  unfold setupBranch; rw [if_pos hb]

/-- Dispatch: no explicit branch and an open PR takes the open-PR path. -/
theorem setupBranch_openPR (env : SetupEnv) (hb : env.branch = "")
    (hpr : env.isPR = true) (hc : env.prState ≠ "CLOSED") (hm : env.prState ≠ "MERGED") :
    setupBranch env = openPRPath env := by
  unfold setupBranch
  rw [if_neg (by simp [hb]), if_pos ⟨hpr, not_or.mpr ⟨hc, hm⟩⟩]

/-- Dispatch: no explicit branch and not an open PR takes the new-branch
path. -/
theorem setupBranch_newBranch (env : SetupEnv) (hb : env.branch = "")
    (h : ¬(env.isPR = true ∧ ¬(env.prState = "CLOSED" ∨ env.prState = "MERGED"))) :
    setupBranch env = newBranchPath env := by
  unfold setupBranch
  rw [if_neg (by simp [hb]), if_neg h]

/-- Mapping a retry-wrapper trace introduces only refresh effects and the
wrapped command's effect. -/
theorem filter_mapGitEvents (p : Effect → Bool) (eff : Effect) (tr : List GitEvent)
    (heff : p eff = false) (href : p .tokenRefresh = false) :
    (mapGitEvents eff tr).filter p = [] := by
  unfold mapGitEvents
  induction tr with
  | nil => rfl
  | cons g tr ih =>
    cases g <;> simp only [List.map_cons, List.filter_cons, href, heff] <;> exact ih

/-- The try-block of the retry wrapper always invokes the operation at
least once. -/
theorem attempt_invoke {α : Type} (env : TokenRefreshEnv α) (t : Int) (tr : List GitEvent) :
    GitEvent.invoke ∈ (withTokenRefreshAttempt env t tr).2.2 := by
  unfold withTokenRefreshAttempt
  cases env.op1 with
  | ok a => simp
  | error e =>
    by_cases h : isAuthErrorMessage e = true
    · rcases hrec : refreshTokenAndReconfigureGit env.recToken env.recReconfig with e2 | tok <;>
        simp [h, hrec]
    · simp [h]

/-- A retry-wrapper call that returns a success invoked the operation. -/
theorem withTokenRefresh_ok_invoke {α : Type} (env : TokenRefreshEnv α) (t : Int) (a : α)
    (h : (withTokenRefresh env t).1 = .ok a) :
    GitEvent.invoke ∈ (withTokenRefresh env t).2.2 := by
  unfold withTokenRefresh at h ⊢
  by_cases hpf : shouldRefreshToken env.now0 t = true
  · rw [if_pos hpf] at h ⊢
    cases hrec : refreshTokenAndReconfigureGit env.preToken env.preReconfig with
    | error e => rw [hrec] at h; simp at h
    | ok tok => exact attempt_invoke env env.nowAfterPre [.refresh]
  · rw [if_neg hpf] at h ⊢
    exact attempt_invoke env t []

/-- The open-PR path emits no GitHub Actions outputs, whatever happens. -/
theorem openPRPath_no_outputs (env : SetupEnv) :
    (openPRPath env).2.filter isSetOutputEff = [] := by
  unfold openPRPath
  rcases hf : withTokenRefresh env.fetchEnv env.startNow with ⟨fres, st, ftr⟩
  have hmap : (mapGitEvents (.gitFetchDepth (max env.commitCount 20) env.headRefName) ftr).filter
      isSetOutputEff = [] :=
    filter_mapGitEvents _ _ _ rfl rfl
  cases fres with
  | error msg => exact hmap
  | ok _ =>
    cases hco : env.gitCheckout with
    | error msg => simp [List.filter_append, hmap, isSetOutputEff]
    | ok _ => simp [List.filter_append, hmap, isSetOutputEff]

/-- Every fetch in the open-PR path's trace uses depth
`max commitCount 20` on the head branch. -/
theorem openPRPath_depths (env : SetupEnv) :
    (openPRPath env).2.all (fetchDepthRight env.commitCount env.headRefName) = true := by
  unfold openPRPath
  rcases hf : withTokenRefresh env.fetchEnv env.startNow with ⟨fres, st, ftr⟩
  have hmap : (mapGitEvents (.gitFetchDepth (max env.commitCount 20) env.headRefName) ftr).all
      (fetchDepthRight env.commitCount env.headRefName) = true := by
    unfold mapGitEvents
    rw [List.all_eq_true]
    intro e he
    rcases List.mem_map.1 he with ⟨g, _, rfl⟩
    cases g
    · rfl
    · simp [fetchDepthRight]
  cases fres with
  | error msg => exact hmap
  | ok _ =>
    cases hco : env.gitCheckout with
    | error msg => simp [List.all_append, hmap, fetchDepthRight]
    | ok _ => simp [List.all_append, hmap, fetchDepthRight]

/-- A successful open-PR resolution returns the PR's base and head with no
agent branch, and actually fetched with the computed depth. -/
theorem openPRPath_ret (env : SetupEnv) (info : BranchInfo)
    (h : (openPRPath env).1 = .ret info) :
    info = { baseBranch := env.baseRefName, claudeBranch := none,
             currentBranch := env.headRefName } ∧
    Effect.gitFetchDepth (max env.commitCount 20) env.headRefName ∈ (openPRPath env).2 := by
  unfold openPRPath at h ⊢
  rcases hf : withTokenRefresh env.fetchEnv env.startNow with ⟨fres, st, ftr⟩
  simp only [hf] at h ⊢
  cases fres with
  | error msg => exact absurd h (by simp)
  | ok _ =>
    cases hco : env.gitCheckout with
    | error msg =>
      try simp only [hco] at h
      exact absurd h (by simp)
    | ok _ =>
      try simp only [hco] at h ⊢
      have hinv : GitEvent.invoke ∈ ftr := by
        have h2 := withTokenRefresh_ok_invoke env.fetchEnv env.startNow () (by rw [hf])
        rw [hf] at h2
        exact h2
      have h' : SetupResult.ret (BranchInfo.mk env.baseRefName none env.headRefName) =
        SetupResult.ret info := h
      injection h' with h2
      subst h2
      refine ⟨rfl, ?_⟩
      show Effect.gitFetchDepth (max env.commitCount 20) env.headRefName ∈
        mapGitEvents (.gitFetchDepth (max env.commitCount 20) env.headRefName) ftr ++
          [Effect.gitCheckout env.headRefName]
      apply List.mem_append_left
      unfold mapGitEvents
      exact List.mem_map.2 ⟨GitEvent.invoke, hinv, rfl⟩

/-- A successful explicit-branch resolution returns the provided branch as
agent and current branch and emits both named outputs. -/
theorem explicitBranchPath_ret (env : SetupEnv) (info : BranchInfo)
    (h : (explicitBranchPath env).1 = .ret info) :
    info.claudeBranch = some env.branch ∧ info.currentBranch = env.branch ∧
    Effect.setOutput "CLAUDE_BRANCH" env.branch ∈ (explicitBranchPath env).2 ∧
    Effect.setOutput "BASE_BRANCH" info.baseBranch ∈ (explicitBranchPath env).2 := by
  cases hgb : env.getBranch with
  | error e =>
    by_cases h4 : jsErrStatus e = some 404
    · have hres : (explicitBranchPath env).1 = .err (.thrown ("Specified branch " ++
        singleQuote ++ env.branch ++ singleQuote ++ " does not exist in the repository")) := by
        simp [explicitBranchPath, hgb, h4]
      rw [hres] at h; exact absurd h (by simp)
    · have hres : (explicitBranchPath env).1 = .err e := by
        simp [explicitBranchPath, hgb, h4]
      rw [hres] at h; exact absurd h (by simp)
  | ok _ =>
    rcases hf : withTokenRefresh env.fetchEnv env.startNow with ⟨fres, st, ftr⟩
    cases fres with
    | error msg =>
      have hres : (explicitBranchPath env).1 = .err (.thrown msg) := by
        simp [explicitBranchPath, hgb, hf]
      rw [hres] at h; exact absurd h (by simp)
    | ok _ =>
      cases hco : env.gitCheckout with
      | error msg =>
        have hres : (explicitBranchPath env).1 = .err (.thrown msg) := by
          simp [explicitBranchPath, hgb, hf, hco]
        rw [hres] at h; exact absurd h (by simp)
      | ok _ =>
        cases hsb : resolveSourceBranch env with
        | error e =>
          have hres : (explicitBranchPath env).1 = .err e := by
            simp [explicitBranchPath, hgb, hf, hco, hsb]
          rw [hres] at h; exact absurd h (by simp)
        | ok sb =>
          have hres : explicitBranchPath env =
              (.ret (BranchInfo.mk sb (some env.branch) env.branch),
               mapGitEvents (.gitFetch env.branch) ftr ++
                 [.gitCheckout env.branch,
                  .setOutput "CLAUDE_BRANCH" env.branch,
                  .setOutput "BASE_BRANCH" sb]) := by
            simp [explicitBranchPath, hgb, hf, hco, hsb]
          rw [hres] at h
          have h2 : BranchInfo.mk sb (some env.branch) env.branch = info := by
            injection h
          subst h2
          refine ⟨rfl, rfl, ?_, ?_⟩ <;> rw [hres] <;> simp

/-- A successful new-branch resolution returns the resolved source branch
as base, the generated name as agent branch, the source branch as current
branch exactly when signing is delegated, and emits both named outputs. -/
theorem newBranchPath_ret (env : SetupEnv) (info : BranchInfo)
    (h : (newBranchPath env).1 = .ret info) :
    resolveSourceBranch env = .ok info.baseBranch ∧
    info.claudeBranch = some (newBranchNameOf env) ∧
    info.currentBranch =
      (if env.useCommitSigning = true then info.baseBranch else newBranchNameOf env) ∧
    Effect.setOutput "CLAUDE_BRANCH" (newBranchNameOf env) ∈ (newBranchPath env).2 ∧
    Effect.setOutput "BASE_BRANCH" info.baseBranch ∈ (newBranchPath env).2 := by
  cases hsb : resolveSourceBranch env with
  | error e =>
    have hres : (newBranchPath env).1 = .err e := by simp [newBranchPath, hsb]
    rw [hres] at h; exact absurd h (by simp)
  | ok sb =>
    cases href : env.getRef with
    | error e =>
      have hres : (newBranchPath env).1 = .exited 1 := by simp [newBranchPath, hsb, href]
      rw [hres] at h; exact absurd h (by simp)
    | ok sha =>
      by_cases hsig : env.useCommitSigning = true
      · have hres : newBranchPath env =
            (.ret (BranchInfo.mk sb (some (newBranchNameOf env)) sb),
             [.setOutput "CLAUDE_BRANCH" (newBranchNameOf env),
              .setOutput "BASE_BRANCH" sb]) := by
          simp [newBranchPath, hsb, href, hsig, newBranchNameOf]
        rw [hres] at h
        have h2 : BranchInfo.mk sb (some (newBranchNameOf env)) sb = info := by
          injection h
        subst h2
        refine ⟨rfl, rfl, by simp [hsig], ?_, ?_⟩ <;> rw [hres] <;> simp
      · cases hcb : env.gitCheckoutB with
        | error msg =>
          have hres : (newBranchPath env).1 = .exited 1 := by
            simp [newBranchPath, hsb, href, hsig, hcb]
          rw [hres] at h; exact absurd h (by simp)
        | ok _ =>
          rcases hp : withTokenRefresh env.pushEnv env.startNow with ⟨pres, pst, ptr⟩
          cases pres with
          | error msg =>
            have hres : (newBranchPath env).1 = .exited 1 := by
              simp [newBranchPath, hsb, href, hsig, hcb, hp]
            rw [hres] at h; exact absurd h (by simp)
          | ok _ =>
            have hres : newBranchPath env =
                (.ret (BranchInfo.mk sb (some (newBranchNameOf env)) (newBranchNameOf env)),
                 Effect.gitCheckoutNewBranch (newBranchNameOf env) ::
                   mapGitEvents (.gitPushUpstream (newBranchNameOf env)) ptr ++
                   [.setOutput "CLAUDE_BRANCH" (newBranchNameOf env),
                    .setOutput "BASE_BRANCH" sb]) := by
              simp [newBranchPath, hsb, href, hsig, hcb, hp, newBranchNameOf]
            rw [hres] at h
            have h2 : BranchInfo.mk sb (some (newBranchNameOf env)) (newBranchNameOf env) =
                info := by injection h
            subst h2
            refine ⟨rfl, rfl, by simp [hsig], ?_, ?_⟩ <;> rw [hres] <;> simp

/-- With commit signing delegated, the new-branch path never creates a
branch locally or remotely, whatever the oracles produce. -/
theorem newBranchPath_signing_frame (env : SetupEnv) (hsig : env.useCommitSigning = true) :
    (newBranchPath env).2.filter isBranchCreationEff = [] := by
  cases hsb : resolveSourceBranch env with
  | error e => simp [newBranchPath, hsb]
  | ok sb =>
    cases href : env.getRef with
    | error e => simp [newBranchPath, hsb, href]
    | ok sha => simp [newBranchPath, hsb, href, hsig, isBranchCreationEff]

/- ===== Contracts and environments for the setupBranch claims ===== -/

/-- Behaviour of `setupBranch` when an explicit branch input's remote
lookup fails: a 404 becomes the branch-not-found error naming the branch,
any other failure propagates unchanged, and in both cases no git command
(in particular no fetch and no checkout) has run. -/
def explicitMissingContract (env : SetupEnv) (e : JsError) : Prop :=
  (jsErrStatus e = some 404 →
    (setupBranch env).1 = .err (.thrown ("Specified branch " ++ singleQuote ++ env.branch ++
      singleQuote ++ " does not exist in the repository")) ∧
    (setupBranch env).2 = []) ∧
  (jsErrStatus e ≠ some 404 →
    (setupBranch env).1 = .err e ∧ (setupBranch env).2 = [])

/-- Behaviour of `setupBranch` on the new-branch path when the source-ref
lookup fails: the process exits with code 1 from inside the function (no
error object reaches the caller) and no git command has run. -/
def refLookupFatalContract (env : SetupEnv) : Prop :=
  (setupBranch env).1 = .exited 1 ∧ (setupBranch env).2 = []

/-- Open-PR resolution contract: every fetch uses depth
`max commitCount 20` on the head branch, a successful run did fetch, and
the result is the PR's base and head with no agent branch. -/
def openPRContract (env : SetupEnv) (info : BranchInfo) : Prop :=
  (setupBranch env).2.all (fetchDepthRight env.commitCount env.headRefName) = true ∧
  Effect.gitFetchDepth (max env.commitCount 20) env.headRefName ∈ (setupBranch env).2 ∧
  info = { baseBranch := env.baseRefName, claudeBranch := none,
           currentBranch := env.headRefName }

/-- Signing-delegated resolution contract: no branch is created locally or
remotely, and the result pairs the resolved source branch (as base and
current branch) with the generated name as agent branch. -/
def signingContract (env : SetupEnv) (info : BranchInfo) : Prop :=
  (setupBranch env).2.filter isBranchCreationEff = [] ∧
  resolveSourceBranch env = .ok info.baseBranch ∧
  info.claudeBranch = some (newBranchNameOf env) ∧
  info.currentBranch = info.baseBranch

/-- Output-emission contract of a successful resolution: the open-PR path
emits no outputs; every other path emits the agent branch name and the base
branch name. -/
def outputsContract (env : SetupEnv) (info : BranchInfo) : Prop :=
  (isOpenPRRunB env = true → (setupBranch env).2.filter isSetOutputEff = []) ∧
  (isOpenPRRunB env = false →
    info.claudeBranch ≠ none ∧
    Effect.setOutput "CLAUDE_BRANCH" (info.claudeBranch.getD "") ∈ (setupBranch env).2 ∧
    Effect.setOutput "BASE_BRANCH" info.baseBranch ∈ (setupBranch env).2)

/-- Clean-working-tree contract of the commit-and-push run: it returns
normally, reports `committed=false`, and never stages, commits or pushes. -/
def cleanTreeContract (env : CommitEnv) : Prop :=
  (commitAndPushRun env).1 = .ok ∧
  Effect.setOutput "committed" "false" ∈ (commitAndPushRun env).2 ∧
  (commitAndPushRun env).2.filter isMutatingGitEff = []

/-- Explicit branch input whose remote lookup reports 404. -/
def envC5 : SetupEnv :=
  { entityNumber := 1, branch := "feature", getBranch := .error (.api 404 "Not Found") }

/-- Issue context whose source-ref lookup reports 404. -/
def envC3 : SetupEnv :=
  { entityNumber := 9, baseBranch := "main", getRef := .error (.api 404 "Not Found") }

/-- Merged-PR context whose source-ref lookup reports 404. -/
def envC3w : SetupEnv :=
  { entityNumber := 5, isPR := true, prState := "MERGED", baseBranch := "dev",
    getRef := .error (.api 404 "missing") }

/-- Successful open-PR resolution (5 commits, so depth 20). -/
def envC4 : SetupEnv :=
  { entityNumber := 3, isPR := true, prState := "OPEN", headRefName := "feature",
    baseRefName := "main", commitCount := 5 }

/-- Successful explicit-branch resolution. -/
def envC4w : SetupEnv := { entityNumber := 2, branch := "topic", baseBranch := "main" }

/-- Successful open-PR resolution with 37 commits (depth 37). -/
def envC7 : SetupEnv :=
  { entityNumber := 8, isPR := true, prState := "OPEN", headRefName := "feat",
    baseRefName := "main", commitCount := 37 }

/-- Successful signing-delegated issue resolution. -/
def envC8 : SetupEnv := { entityNumber := 7, baseBranch := "main", useCommitSigning := true }

/-- Clean-working-tree commit-and-push run. -/
def envC9 : CommitEnv := { gitStatus := .ok "\n" }

/- ===== Claims C3, C4, C5, C7, C8, C9 ===== -/

/-- Claim C5: for every context supplying an explicit branch name whose
remote lookup reports 404, resolution fails with the branch-not-found error
naming the branch and performs no fetch and no checkout; any other lookup
failure propagates unchanged. -/
theorem claim_C5_theorem (env : SetupEnv) (e : JsError)
    (hb : env.branch ≠ "") (herr : env.getBranch = .error e) :
    explicitMissingContract env e := by
  unfold explicitMissingContract
  rw [setupBranch_explicit env hb]
  constructor
  · intro h4
    constructor <;> simp [explicitBranchPath, herr, h4]
  · intro h4
    constructor <;> simp [explicitBranchPath, herr, h4]

/-- Claim C5 (witness): the contract at a concrete 404 lookup. -/
theorem claim_C5_witness : explicitMissingContract envC5 (.api 404 "Not Found") :=
  claim_C5_theorem envC5 (.api 404 "Not Found") (by decide) rfl

/-- Claim C3 (counterexample to the claim as stated): with the source ref
lookup reporting 404, `setupBranch` ends the process with exit code 1
rather than surfacing an error to its caller (the result is `exited 1`,
not an `err`). -/
theorem claim_C3_counterexample :
    envC3.getRef = Except.error (JsError.api 404 "Not Found") ∧
    (setupBranch envC3).1 = SetupResult.exited 1 := by decide

/-- Claim C3 (amended): for every issue or closed/merged-PR context whose
source-branch ref lookup fails (404 included), branch resolution is fatal:
the failure is logged and the process exits with code 1 from inside
`setupBranch`; no error object is surfaced to the caller, and no git
command has run. -/
theorem claim_C3_amended (env : SetupEnv) (e : JsError) (sb : String)
    (hb : env.branch = "")
    (hnoopen : ¬(env.isPR = true ∧ ¬(env.prState = "CLOSED" ∨ env.prState = "MERGED")))
    (hsb : resolveSourceBranch env = .ok sb)
    (href : env.getRef = .error e) :
    refLookupFatalContract env := by
  unfold refLookupFatalContract
  rw [setupBranch_newBranch env hb hnoopen]
  constructor <;> simp [newBranchPath, hsb, href]

/-- Claim C3 (witness): the amended claim at a concrete merged-PR context
with a 404 ref lookup. -/
theorem claim_C3_witness : refLookupFatalContract envC3w :=
  claim_C3_amended envC3w (.api 404 "missing") "dev" rfl (by decide) (by decide) rfl

/-- Claim C7: for every open-PR context, every fetch uses depth
`max(totalCommitCount, 20)` on the head branch (and a successful run did
fetch), and the result is the PR's base branch and head branch with no
`claudeBranch`. -/
theorem claim_C7_theorem (env : SetupEnv) (info : BranchInfo)
    (hb : env.branch = "") (hpr : env.isPR = true)
    (hc : env.prState ≠ "CLOSED") (hm : env.prState ≠ "MERGED")
    (hres : (setupBranch env).1 = .ret info) :
    openPRContract env info := by
  unfold openPRContract
  rw [setupBranch_openPR env hb hpr hc hm] at hres ⊢
  obtain ⟨hinfo, hmem⟩ := openPRPath_ret env info hres
  exact ⟨openPRPath_depths env, hmem, hinfo⟩

/-- Claim C7 (witness): the contract at a concrete open PR with 37 commits
(fetch depth 37). -/
theorem claim_C7_witness : openPRContract envC7 (BranchInfo.mk "main" none "feat") :=
  claim_C7_theorem envC7 (BranchInfo.mk "main" none "feat") rfl rfl
    (by decide) (by decide) (by decide)

/-- Claim C8: for every issue or closed/merged-PR context with commit
signing delegated, a successful resolution creates no branch locally or
remotely and returns the source branch as both base and current branch with
the generated name as agent branch (`currentBranch = sourceBranch`). -/
theorem claim_C8_theorem (env : SetupEnv) (info : BranchInfo)
    (hb : env.branch = "")
    (hnoopen : ¬(env.isPR = true ∧ ¬(env.prState = "CLOSED" ∨ env.prState = "MERGED")))
    (hsig : env.useCommitSigning = true)
    (hres : (setupBranch env).1 = .ret info) :
    signingContract env info := by
  unfold signingContract
  rw [setupBranch_newBranch env hb hnoopen] at hres ⊢
  obtain ⟨h1, h2, h3, _, _⟩ := newBranchPath_ret env info hres
  refine ⟨newBranchPath_signing_frame env hsig, h1, h2, ?_⟩
  rw [h3, if_pos hsig]

/-- Claim C8 (witness): the contract at a concrete signing-delegated issue
context. -/
theorem claim_C8_witness :
    signingContract envC8 (BranchInfo.mk "main" (some "claude/issue-7-20240101-0000") "main") :=
  claim_C8_theorem envC8 (BranchInfo.mk "main" (some "claude/issue-7-20240101-0000") "main")
    rfl (by decide) rfl (by decide)

/-- Claim C4 (counterexample to the claim as stated): a successful open-PR
resolution emits no named results at all — neither the agent branch nor the
base branch output. -/
theorem claim_C4_counterexample :
    (setupBranch envC4).1 = SetupResult.ret (BranchInfo.mk "main" none "feature") ∧
    (setupBranch envC4).2.filter isSetOutputEff = [] := by decide

/-- Claim C4 (amended): every successful branch resolution other than the
open-pull-request case emits the two named results (the agent branch name
and the base branch name); the open-pull-request case emits none. -/
theorem claim_C4_amended (env : SetupEnv) (info : BranchInfo)
    (hres : (setupBranch env).1 = .ret info) :
    outputsContract env info := by
  unfold outputsContract
  constructor
  · intro hopen
    have hb3 : (env.branch = "" ∧ env.isPR = true) ∧
        env.prState ≠ "CLOSED" ∧ env.prState ≠ "MERGED" := by
      simpa [isOpenPRRunB, not_or] using hopen
    obtain ⟨⟨hb, hpr⟩, hc, hm⟩ := hb3
    rw [setupBranch_openPR env hb hpr hc hm]
    exact openPRPath_no_outputs env
  · intro hclosed
    by_cases hb : env.branch = ""
    · have hnoopen : ¬(env.isPR = true ∧
          ¬(env.prState = "CLOSED" ∨ env.prState = "MERGED")) := by
        intro hcon
        obtain ⟨hpr, hcm⟩ := hcon
        obtain ⟨hc, hm⟩ := not_or.mp hcm
        have htrue : isOpenPRRunB env = true := by
          simp [isOpenPRRunB, hb, hpr, hc, hm]
        rw [hclosed] at htrue
        exact Bool.noConfusion htrue
      rw [setupBranch_newBranch env hb hnoopen] at hres ⊢
      obtain ⟨h1, h2, h3, h4, h5⟩ := newBranchPath_ret env info hres
      refine ⟨by simp [h2], ?_, h5⟩
      rw [h2]
      simpa using h4
    · rw [setupBranch_explicit env hb] at hres ⊢
      obtain ⟨h1, h2, h3, h4⟩ := explicitBranchPath_ret env info hres
      refine ⟨by simp [h1], ?_, h4⟩
      rw [h1]
      simpa using h3

/-- Claim C4 (witness): the amended claim at a concrete successful
explicit-branch resolution, which emits both outputs. -/
theorem claim_C4_witness : outputsContract envC4w (BranchInfo.mk "main" (some "topic") "topic") :=
  claim_C4_amended envC4w (BranchInfo.mk "main" (some "topic") "topic") (by decide)

/-- Claim C9: for every commit-and-push run whose status query reports no
pending changes, the run reports `committed=false` and returns without
invoking staging, commit creation, or push. -/
theorem claim_C9_theorem (env : CommitEnv) (statusOut : String)
    (hc1 : env.gitConfigName = .ok ()) (hc2 : env.gitConfigEmail = .ok ())
    (hst : env.gitStatus = .ok statusOut)
    (hclean : (jsTrim statusOut).data.length = 0) :
    cleanTreeContract env := by
  unfold cleanTreeContract
  have hrun : commitAndPushRun env =
      (.ok, [.gitConfigUserName, .gitConfigUserEmail, .gitStatusQuery,
             .setOutput "committed" "false"]) := by
    simp [commitAndPushRun, hc1, hc2, hst, hclean]
  rw [hrun]
  exact ⟨rfl, by decide, by decide⟩

/-- Claim C9 (witness): the contract at a concrete clean-tree run. -/
theorem claim_C9_witness : cleanTreeContract envC9 :=
  claim_C9_theorem envC9 "\n" rfl rfl rfl (by decide)
